import Mathlib

/-!
Verification of the version-resolution core of the perseus container-build
scripts.  The definitions below are shallow embeddings of the Python
functions in `install.py` and `generate.py`; each definition's doc comment
names the function and line range it embeds.  `install.py` lines 420-652
(`get_dep_version`) and `generate.py` lines 53-285
(`get_granular_dependency_version`) are byte-identical up to the function
name, as are the two copies of the static table `perseus_deps`
(`install.py` 713-1117, `generate.py` 327-731); each is embedded once.
-/

namespace DockerPerseus

/-- Embeds the `Dependency` namedtuple (install.py 705-711, generate.py 319-325):
a single pinned package, `name` and `version`. -/
structure Dependency where
  name : String
  version : String
deriving DecidableEq, Repr, Inhabited

/-- Embeds the `OperatingSystem` namedtuple (install.py 687-694, generate.py 301-308):
distribution name, base-image version, and the dependency list. -/
structure OperatingSystem where
  name : String
  version : String
  dep : List Dependency
deriving DecidableEq, Repr, Inhabited

/-- Embeds the `PerseusRelease` namedtuple (install.py 679-685, generate.py 293-299):
a release tag together with its operating-system record. -/
structure PerseusRelease where
  tag : String
  os : OperatingSystem
deriving DecidableEq, Repr, Inhabited

/-- Embeds the static fallback table `perseus_deps`
(install.py 713-1117; the copy in generate.py 327-731 is byte-identical). -/
def perseus_deps : List PerseusRelease := [
  PerseusRelease.mk "0.3.0" (OperatingSystem.mk "alpine" "3.15.6" [
    Dependency.mk "alpine-sdk" "1.0-r1",
    Dependency.mk "binaryen" "104",
    Dependency.mk "browser-sync" "2.27.7",
    Dependency.mk "concurrently" "6.5.1",
    Dependency.mk "esbuild" "0.14.6",
    Dependency.mk "git" "2.34.1",
    Dependency.mk "linux-headers" "5.10.41-r0",
    Dependency.mk "make" "4.3-r0",
    Dependency.mk "musl-dev" "1.2.2-r7",
    Dependency.mk "node" "17.3.0",
    Dependency.mk "npm" "8.3.0",
    Dependency.mk "openrc" "0.44.7-r5",
    Dependency.mk "openssl" "1.1.1q",
    Dependency.mk "perl" "5.34.0-r1",
    Dependency.mk "perseus-size-opt" "0.1.7",
    Dependency.mk "pkgconf" "1.8.0-r0",
    Dependency.mk "rust" "1.57.0",
    Dependency.mk "rustup" "1.24.3",
    Dependency.mk "serve" "13.0.2",
    Dependency.mk "tailwindcss" "3.0.7",
    Dependency.mk "wasm-pack" "0.10.2",
    Dependency.mk "zlib-dev" "1.2.12-r3"
  ]),
  PerseusRelease.mk "0.3.1" (OperatingSystem.mk "alpine" "3.15.6" [
    Dependency.mk "alpine-sdk" "1.0-r1",
    Dependency.mk "binaryen" "104",
    Dependency.mk "browser-sync" "2.27.7",
    Dependency.mk "concurrently" "7.0.0",
    Dependency.mk "esbuild" "0.14.10",
    Dependency.mk "git" "2.34.1",
    Dependency.mk "linux-headers" "5.10.41-r0",
    Dependency.mk "make" "4.3-r0",
    Dependency.mk "musl-dev" "1.2.2-r7",
    Dependency.mk "node" "17.3.0",
    Dependency.mk "npm" "8.3.0",
    Dependency.mk "openrc" "0.44.7-r5",
    Dependency.mk "openssl" "1.1.1q",
    Dependency.mk "perl" "5.34.0-r1",
    Dependency.mk "perseus-size-opt" "0.1.7",
    Dependency.mk "pkgconf" "1.8.0-r0",
    Dependency.mk "rust" "1.57.0",
    Dependency.mk "rustup" "1.24.3",
    Dependency.mk "serve" "13.0.2",
    Dependency.mk "tailwindcss" "3.0.8",
    Dependency.mk "wasm-pack" "0.10.2",
    Dependency.mk "zlib-dev" "1.2.12-r3"
  ]),
  PerseusRelease.mk "0.3.2" (OperatingSystem.mk "alpine" "3.15.6" [
    Dependency.mk "alpine-sdk" "1.0-r1",
    Dependency.mk "binaryen" "104",
    Dependency.mk "browser-sync" "2.27.7",
    Dependency.mk "concurrently" "7.0.0",
    Dependency.mk "esbuild" "0.14.11",
    Dependency.mk "git" "2.34.1",
    Dependency.mk "linux-headers" "5.10.41-r0",
    Dependency.mk "make" "4.3-r0",
    Dependency.mk "musl-dev" "1.2.2-r7",
    Dependency.mk "node" "17.3.1",
    Dependency.mk "npm" "8.3.0",
    Dependency.mk "openrc" "0.44.7-r5",
    Dependency.mk "openssl" "1.1.1q",
    Dependency.mk "perl" "5.34.0-r1",
    Dependency.mk "perseus-size-opt" "0.1.7",
    Dependency.mk "pkgconf" "1.8.0-r0",
    Dependency.mk "rust" "1.57.0",
    Dependency.mk "rustup" "1.24.3",
    Dependency.mk "serve" "13.0.2",
    Dependency.mk "tailwindcss" "3.0.12",
    Dependency.mk "wasm-pack" "0.10.2",
    Dependency.mk "zlib-dev" "1.2.12-r3"
  ]),
  PerseusRelease.mk "0.3.3" (OperatingSystem.mk "alpine" "3.15.6" [
    Dependency.mk "alpine-sdk" "1.0-r1",
    Dependency.mk "binaryen" "105",
    Dependency.mk "browser-sync" "2.27.7",
    Dependency.mk "concurrently" "7.0.0",
    Dependency.mk "esbuild" "0.14.21",
    Dependency.mk "git" "2.35.1",
    Dependency.mk "linux-headers" "5.10.41-r0",
    Dependency.mk "make" "4.3-r0",
    Dependency.mk "musl-dev" "1.2.2-r7",
    Dependency.mk "node" "17.5.0",
    Dependency.mk "npm" "8.4.1",
    Dependency.mk "openrc" "0.44.7-r5",
    Dependency.mk "openssl" "1.1.1q",
    Dependency.mk "perl" "5.34.0-r1",
    Dependency.mk "perseus-size-opt" "0.1.7",
    Dependency.mk "pkgconf" "1.8.0-r0",
    Dependency.mk "rust" "1.58.1",
    Dependency.mk "rustup" "1.24.3",
    Dependency.mk "serve" "13.0.2",
    Dependency.mk "tailwindcss" "3.0.22",
    Dependency.mk "wasm-pack" "0.10.2",
    Dependency.mk "zlib-dev" "1.2.12-r3"
  ]),
  PerseusRelease.mk "0.3.4" (OperatingSystem.mk "alpine" "3.15.6" [
    Dependency.mk "alpine-sdk" "1.0-r1",
    Dependency.mk "binaryen" "105",
    Dependency.mk "browser-sync" "2.27.9",
    Dependency.mk "concurrently" "7.1.0",
    Dependency.mk "esbuild" "0.14.36",
    Dependency.mk "git" "2.36.0",
    Dependency.mk "linux-headers" "5.10.41-r0",
    Dependency.mk "make" "4.3-r0",
    Dependency.mk "musl-dev" "1.2.2-r7",
    Dependency.mk "node" "18.0.0",
    Dependency.mk "npm" "8.6.0",
    Dependency.mk "openrc" "0.44.7-r5",
    Dependency.mk "openssl" "1.1.1q",
    Dependency.mk "perl" "5.34.0-r1",
    Dependency.mk "perseus-size-opt" "0.1.8",
    Dependency.mk "pkgconf" "1.8.0-r0",
    Dependency.mk "rust" "1.60.0",
    Dependency.mk "rustup" "1.24.3",
    Dependency.mk "serve" "13.0.2",
    Dependency.mk "tailwindcss" "3.0.24",
    Dependency.mk "wasm-pack" "0.10.2",
    Dependency.mk "zlib-dev" "1.2.12-r3"
  ]),
  PerseusRelease.mk "0.3.5" (OperatingSystem.mk "alpine" "3.15.6" [
    Dependency.mk "alpine-sdk" "1.0-r1",
    Dependency.mk "binaryen" "105",
    Dependency.mk "browser-sync" "2.27.10",
    Dependency.mk "concurrently" "7.1.0",
    Dependency.mk "esbuild" "0.14.36",
    Dependency.mk "git" "2.36.0",
    Dependency.mk "linux-headers" "5.10.41-r0",
    Dependency.mk "make" "4.3-r0",
    Dependency.mk "musl-dev" "1.2.2-r7",
    Dependency.mk "node" "18.0.0",
    Dependency.mk "npm" "8.6.0",
    Dependency.mk "openrc" "0.44.7-r5",
    Dependency.mk "openssl" "1.1.1q",
    Dependency.mk "perl" "5.34.0-r1",
    Dependency.mk "perseus-size-opt" "0.1.9",
    Dependency.mk "pkgconf" "1.8.0-r0",
    Dependency.mk "rust" "1.60.0",
    Dependency.mk "rustup" "1.24.3",
    Dependency.mk "serve" "13.0.2",
    Dependency.mk "tailwindcss" "3.0.24",
    Dependency.mk "wasm-pack" "0.10.2",
    Dependency.mk "zlib-dev" "1.2.12-r3"
  ]),
  PerseusRelease.mk "0.4.0-beta.1" (OperatingSystem.mk "alpine" "3.16.2" [
    Dependency.mk "alpine-sdk" "1.0-r1",
    Dependency.mk "binaryen" "108",
    Dependency.mk "browser-sync" "2.27.10",
    Dependency.mk "concurrently" "7.2.1",
    Dependency.mk "esbuild" "0.14.42",
    Dependency.mk "git" "2.36.1",
    Dependency.mk "linux-headers" "5.16.7-r1",
    Dependency.mk "make" "4.3-r0",
    Dependency.mk "musl-dev" "1.2.3-r0",
    Dependency.mk "node" "18.2.0",
    Dependency.mk "npm" "8.9.0",
    Dependency.mk "openrc" "0.44.10-r7",
    Dependency.mk "openssl" "1.1.1q",
    Dependency.mk "perl" "5.34.1-r0",
    Dependency.mk "perseus-size-opt" "0.1.7",
    Dependency.mk "pkgconf" "1.8.0-r1",
    Dependency.mk "rust" "1.61.0",
    Dependency.mk "rustup" "1.24.3",
    Dependency.mk "serve" "13.0.2",
    Dependency.mk "tailwindcss" "3.0.24",
    Dependency.mk "wasm-pack" "0.10.2",
    Dependency.mk "zlib-dev" "1.2.12-r3"
  ]),
  PerseusRelease.mk "0.4.0-beta.2" (OperatingSystem.mk "alpine" "3.16.2" [
    Dependency.mk "alpine-sdk" "1.0-r1",
    Dependency.mk "binaryen" "109",
    Dependency.mk "browser-sync" "2.27.10",
    Dependency.mk "concurrently" "7.2.2",
    Dependency.mk "esbuild" "0.14.47",
    Dependency.mk "git" "2.36.2",
    Dependency.mk "linux-headers" "5.16.7-r1",
    Dependency.mk "make" "4.3-r0",
    Dependency.mk "musl-dev" "1.2.3-r0",
    Dependency.mk "node" "18.4.0",
    Dependency.mk "npm" "8.12.1",
    Dependency.mk "openrc" "0.44.10-r7",
    Dependency.mk "openssl" "1.1.1q",
    Dependency.mk "perl" "5.34.1-r0",
    Dependency.mk "perseus-size-opt" "0.1.7",
    Dependency.mk "pkgconf" "1.8.0-r1",
    Dependency.mk "rust" "1.61.0",
    Dependency.mk "rustup" "1.24.3",
    Dependency.mk "serve" "13.0.3",
    Dependency.mk "tailwindcss" "3.1.4",
    Dependency.mk "wasm-pack" "0.10.2",
    Dependency.mk "zlib-dev" "1.2.12-r3"
  ]),
  PerseusRelease.mk "0.4.0-beta.3" (OperatingSystem.mk "alpine" "3.16.2" [
    Dependency.mk "alpine-sdk" "1.0-r1",
    Dependency.mk "binaryen" "109",
    Dependency.mk "browser-sync" "2.27.10",
    Dependency.mk "concurrently" "7.3.0",
    Dependency.mk "esbuild" "0.14.48",
    Dependency.mk "git" "2.37.1",
    Dependency.mk "linux-headers" "5.16.7-r1",
    Dependency.mk "make" "4.3-r0",
    Dependency.mk "musl-dev" "1.2.3-r0",
    Dependency.mk "node" "18.4.0",
    Dependency.mk "npm" "8.12.1",
    Dependency.mk "openrc" "0.44.10-r7",
    Dependency.mk "openssl" "1.1.1q",
    Dependency.mk "perl" "5.34.1-r0",
    Dependency.mk "perseus-size-opt" "0.1.7",
    Dependency.mk "pkgconf" "1.8.0-r1",
    Dependency.mk "rust" "1.62.0",
    Dependency.mk "rustup" "1.24.3",
    Dependency.mk "serve" "13.0.2",
    Dependency.mk "tailwindcss" "3.1.4",
    Dependency.mk "wasm-pack" "0.10.3",
    Dependency.mk "zlib-dev" "1.2.12-r3"
  ]),
  PerseusRelease.mk "0.4.0-beta.4" (OperatingSystem.mk "alpine" "3.16.2" [
    Dependency.mk "alpine-sdk" "1.0-r1",
    Dependency.mk "binaryen" "109",
    Dependency.mk "browser-sync" "2.27.10",
    Dependency.mk "concurrently" "7.3.0",
    Dependency.mk "esbuild" "0.14.49",
    Dependency.mk "git" "2.37.1",
    Dependency.mk "linux-headers" "5.16.7-r1",
    Dependency.mk "make" "4.3-r0",
    Dependency.mk "musl-dev" "1.2.3-r0",
    Dependency.mk "node" "18.6.0",
    Dependency.mk "npm" "8.13.2",
    Dependency.mk "openrc" "0.44.10-r7",
    Dependency.mk "openssl" "1.1.1q",
    Dependency.mk "perl" "5.34.1-r0",
    Dependency.mk "perseus-size-opt" "0.1.7",
    Dependency.mk "pkgconf" "1.8.0-r1",
    Dependency.mk "rust" "1.62.0",
    Dependency.mk "rustup" "1.24.3",
    Dependency.mk "serve" "13.0.2",
    Dependency.mk "tailwindcss" "3.1.6",
    Dependency.mk "wasm-pack" "0.10.3",
    Dependency.mk "zlib-dev" "1.2.12-r3"
  ]),
  PerseusRelease.mk "0.4.0-beta.5" (OperatingSystem.mk "alpine" "3.16.2" [
    Dependency.mk "alpine-sdk" "1.0-r1",
    Dependency.mk "binaryen" "109",
    Dependency.mk "browser-sync" "2.27.10",
    Dependency.mk "concurrently" "7.3.0",
    Dependency.mk "esbuild" "0.14.49",
    Dependency.mk "git" "2.37.1",
    Dependency.mk "linux-headers" "5.16.7-r1",
    Dependency.mk "make" "4.3-r0",
    Dependency.mk "musl-dev" "1.2.3-r0",
    Dependency.mk "node" "18.6.0",
    Dependency.mk "npm" "8.13.2",
    Dependency.mk "openrc" "0.44.10-r7",
    Dependency.mk "openssl" "1.1.1q",
    Dependency.mk "perl" "5.34.1-r0",
    Dependency.mk "perseus-size-opt" "0.1.7",
    Dependency.mk "pkgconf" "1.8.0-r1",
    Dependency.mk "rust" "1.62.0",
    Dependency.mk "rustup" "1.25.1",
    Dependency.mk "serve" "13.0.4",
    Dependency.mk "tailwindcss" "3.1.6",
    Dependency.mk "wasm-pack" "0.10.3",
    Dependency.mk "zlib-dev" "1.2.12-r3"
  ]),
  PerseusRelease.mk "0.4.0-beta.6" (OperatingSystem.mk "alpine" "3.16.2" [
    Dependency.mk "alpine-sdk" "1.0-r1",
    Dependency.mk "binaryen" "109",
    Dependency.mk "browser-sync" "2.27.10",
    Dependency.mk "concurrently" "7.3.0",
    Dependency.mk "esbuild" "0.15.3",
    Dependency.mk "git" "2.37.2",
    Dependency.mk "linux-headers" "5.16.7-r1",
    Dependency.mk "make" "4.3-r0",
    Dependency.mk "musl-dev" "1.2.3-r0",
    Dependency.mk "node" "18.7.0",
    Dependency.mk "npm" "8.15.0",
    Dependency.mk "openrc" "0.44.10-r7",
    Dependency.mk "openssl" "1.1.1q",
    Dependency.mk "perl" "5.34.1-r0",
    Dependency.mk "perseus-size-opt" "0.1.7",
    Dependency.mk "pkgconf" "1.8.0-r1",
    Dependency.mk "rust" "1.63.0",
    Dependency.mk "rustup" "1.25.1",
    Dependency.mk "serve" "14.0.1",
    Dependency.mk "tailwindcss" "3.1.8",
    Dependency.mk "wasm-pack" "0.10.3",
    Dependency.mk "zlib-dev" "1.2.12-r3"
  ]),
  PerseusRelease.mk "0.4.0-beta.7" (OperatingSystem.mk "alpine" "3.16.2" [
    Dependency.mk "alpine-sdk" "1.0-r1",
    Dependency.mk "binaryen" "109",
    Dependency.mk "browser-sync" "2.27.10",
    Dependency.mk "concurrently" "7.3.0",
    Dependency.mk "esbuild" "0.15.3",
    Dependency.mk "git" "2.37.2",
    Dependency.mk "linux-headers" "5.16.7-r1",
    Dependency.mk "make" "4.3-r0",
    Dependency.mk "musl-dev" "1.2.3-r0",
    Dependency.mk "node" "18.7.0",
    Dependency.mk "npm" "8.15.0",
    Dependency.mk "openrc" "0.44.10-r7",
    Dependency.mk "openssl" "1.1.1q",
    Dependency.mk "perl" "5.34.1-r0",
    Dependency.mk "perseus-size-opt" "0.1.7",
    Dependency.mk "pkgconf" "1.8.0-r1",
    Dependency.mk "rust" "1.63.0",
    Dependency.mk "rustup" "1.25.1",
    Dependency.mk "serve" "14.0.1",
    Dependency.mk "tailwindcss" "3.1.8",
    Dependency.mk "wasm-pack" "0.10.3",
    Dependency.mk "zlib-dev" "1.2.12-r3"
  ])
]

/-- Splits a character list into its maximal leading run of decimal digits
and the remainder (the behaviour of a greedy `[0-9]{1,}` group, whose run
cannot be shortened because a digit is never a dot). -/
def takeDigits : List Char → (List Char × List Char)
  | [] => ([], [])
  | c :: cs =>
    if c.isDigit then
      let p := takeDigits cs
      (c :: p.1, p.2)
    else ([], c :: cs)

/-- The numeric value of a digit run, as Python `int(...)` computes it on a
regex group known to consist of decimal digits. -/
def digitsToNat (l : List Char) : Nat :=
  l.foldl (fun n c => 10 * n + (c.toNat - 48)) 0

/-- Embeds the anchored regular expression `^([0-9]{1,})\.([0-9]{1,})\.([0-9]{1,})$`
applied with `match` plus `int(...)` on the first two groups
(install.py 375-382, generate.py 18-22): the pattern accepts exactly the
strings made of three nonempty all-digit components separated by single
dots, and the groups are those components. -/
def parseSemverTriple (s : String) : Option (Nat × Nat × Nat) :=
  let p1 := takeDigits s.data
  match p1.2 with
  | '.' :: r1 =>
    let p2 := takeDigits r1
    match p2.2 with
    | '.' :: r2 =>
      let p3 := takeDigits r2
      if p1.1 ≠ [] ∧ p2.1 ≠ [] ∧ p3.1 ≠ [] ∧ p3.2 = [] then
        some (digitsToNat p1.1, digitsToNat p2.1, digitsToNat p3.1)
      else none
    | _ => none
  | _ => none

/-- Embeds `get_alpine_version` (install.py 365-386; the copy in generate.py 7-27
differs only in local variable names and one dead pattern assignment).
Six fixed `0.3.x` tags map to `"3.15.6"`; otherwise a tag parsing as a
numeric triple with `major == 0 and minor > 3` maps to `"3.16.2"`;
every other string maps to `None`. -/
def get_alpine_version (tag : String) : Option String :=
  if tag ∈ ["0.3.0", "0.3.1", "0.3.2", "0.3.3", "0.3.4", "0.3.5"] then
    some "3.15.6"
  else
    match parseSemverTriple tag with
    | some (major_v, minor_v, _) =>
        if major_v = 0 ∧ minor_v > 3 then some "3.16.2" else none
    | none => none

/-- Inner `match tag` block of the `case "binaryen"` arm of `get_dep_version` -/
def depver_binaryen (tag : String) : Option String :=
  if tag ∈ ["0.3.0", "0.3.1", "0.3.2"] then some "104"
  else if tag ∈ ["0.3.3", "0.3.4", "0.3.5"] then some "105"
  else if tag ∈ ["0.4.0-beta.1"] then some "108"
  else if tag ∈ ["0.4.0-beta.2", "0.4.0-beta.3", "0.4.0-beta.4", "0.4.0-beta.5", "0.4.0-beta.6", "0.4.0-beta.7"] then some "109"
  else none

/-- Inner `match tag` block of the `case "bonnie"` arm of `get_dep_version` -/
def depver_bonnie (tag : String) : Option String :=
  some "0.3.2"

/-- Inner `match tag` block of the `case "browser-sync"` arm of `get_dep_version` -/
def depver_browser_sync (tag : String) : Option String :=
  if tag ∈ ["0.3.0", "0.3.1", "0.3.2", "0.3.3"] then some "2.27.7"
  else if tag ∈ ["0.3.4"] then some "2.27.9"
  else if tag ∈ ["0.3.5", "0.4.0-beta.1", "0.4.0-beta.2", "0.4.0-beta.3", "0.4.0-beta.4", "0.4.0-beta.5", "0.4.0-beta.6", "0.4.0-beta.7"] then some "2.27.10"
  else none

/-- Inner `match tag` block of the `case "concurrently"` arm of `get_dep_version` -/
def depver_concurrently (tag : String) : Option String :=
  if tag ∈ ["0.3.0"] then some "6.5.1"
  else if tag ∈ ["0.3.1", "0.3.2", "0.3.3"] then some "7.0.0"
  else if tag ∈ ["0.3.4", "0.3.5"] then some "7.1.0"
  else if tag ∈ ["0.4.0-beta.1"] then some "7.2.1"
  else if tag ∈ ["0.4.0-beta.2"] then some "7.2.2"
  else if tag ∈ ["0.4.0-beta.3", "0.4.0-beta.4", "0.4.0-beta.5", "0.4.0-beta.6", "0.4.0-beta.7"] then some "7.3.0"
  else none

/-- Inner `match tag` block of the `case "esbuild"` arm of `get_dep_version` -/
def depver_esbuild (tag : String) : Option String :=
  if tag ∈ ["0.3.0"] then some "0.14.6"
  else if tag ∈ ["0.3.1"] then some "0.14.10"
  else if tag ∈ ["0.3.2"] then some "0.14.11"
  else if tag ∈ ["0.3.3"] then some "0.14.21"
  else if tag ∈ ["0.3.4", "0.3.5"] then some "0.14.36"
  else if tag ∈ ["0.4.0-beta.1"] then some "0.14.42"
  else if tag ∈ ["0.4.0-beta.2"] then some "0.14.47"
  else if tag ∈ ["0.4.0-beta.3"] then some "0.14.48"
  else if tag ∈ ["0.4.0-beta.4", "0.4.0-beta.5"] then some "0.14.49"
  else if tag ∈ ["0.4.0-beta.6", "0.4.0-beta.7"] then some "0.15.3"
  else none

/-- Inner `match tag` block of the `case "node"` arm of `get_dep_version` -/
def depver_node (tag : String) : Option String :=
  if tag ∈ ["0.3.0", "0.3.1"] then some "17.3.0"
  else if tag ∈ ["0.3.2"] then some "17.3.1"
  else if tag ∈ ["0.3.3"] then some "17.5.0"
  else if tag ∈ ["0.3.4", "0.3.5"] then some "18.0.0"
  else if tag ∈ ["0.4.0-beta.1"] then some "18.2.0"
  else if tag ∈ ["0.4.0-beta.2", "0.4.0-beta.3"] then some "18.4.0"
  else if tag ∈ ["0.4.0-beta.4", "0.4.0-beta.5"] then some "18.6.0"
  else if tag ∈ ["0.4.0-beta.6", "0.4.0-beta.7"] then some "18.7.0"
  else none

/-- Inner `match tag` block of the `case "npm"` arm of `get_dep_version` -/
def depver_npm (tag : String) : Option String :=
  if tag ∈ ["0.3.0", "0.3.1.", "0.3.2"] then some "8.3.0"
  else if tag ∈ ["0.3.3"] then some "8.4.1"
  else if tag ∈ ["0.3.4", "0.3.5"] then some "8.6.0"
  else if tag ∈ ["0.4.0-beta.1"] then some "8.9.0"
  else if tag ∈ ["0.4.0-beta.2", "0.4.0-beta.3"] then some "8.12.1"
  else if tag ∈ ["0.4.0-beta.4", "0.4.0-beta.5"] then some "8.13.2"
  else if tag ∈ ["0.4.0-beta.6", "0.4.0-beta.7"] then some "8.15.0"
  else none

/-- Inner `match tag` block of the `case "nvm"` arm of `get_dep_version` -/
def depver_nvm (tag : String) : Option String :=
  some "0.39.1"

/-- Inner `match tag` block of the `case "perseus-size-opt"` arm of `get_dep_version` -/
def depver_perseus_size_opt (tag : String) : Option String :=
  if tag ∈ ["0.3.0", "0.3.1", "0.3.2", "0.3.3"] then some "0.1.7"
  else if tag ∈ ["0.3.4"] then some "0.1.8"
  else if tag ∈ ["0.3.5"] then some "0.1.9"
  else none

/-- Inner `match tag` block of the `case "rustup"` arm of `get_dep_version` -/
def depver_rustup (tag : String) : Option String :=
  if tag ∈ ["0.3.0", "0.3.1", "0.3.2", "0.3.3", "0.3.4", "0.3.5", "0.4.0-beta.1", "0.4.0-beta.2", "0.4.0-beta.3"] then some "1.24.3"
  else if tag ∈ ["0.4.0-beta.4", "0.4.0-beta.5", "0.4.0-beta.6", "0.4.0-beta.7"] then some "1.25.1"
  else none

/-- Inner `match tag` block of the `case "rust"` arm of `get_dep_version` -/
def depver_rust (tag : String) : Option String :=
  if tag ∈ ["0.3.0", "0.3.1", "0.3.2"] then some "1.57.0"
  else if tag ∈ ["0.3.3"] then some "1.58.1"
  else if tag ∈ ["0.3.4", "0.3.5"] then some "1.60.0"
  else if tag ∈ ["0.4.0-beta.1", "0.4.0-beta.2"] then some "1.61.0"
  else if tag ∈ ["0.4.0-beta.3", "0.4.0-beta.4", "0.4.0-beta.5"] then some "1.62.0"
  else if tag ∈ ["0.4.0-beta.6", "0.4.0-beta.7"] then some "1.63.0"
  else none

/-- Inner `match tag` block of the `case "serve"` arm of `get_dep_version` -/
def depver_serve (tag : String) : Option String :=
  if tag ∈ ["0.3.0", "0.3.1", "0.3.2", "0.3.3", "0.3.4", "0.3.5", "0.4.0-beta.1", "0.4.0-beta.2", "0.4.0-beta.3"] then some "13.0.2"
  else if tag ∈ ["0.4.0-beta.4"] then some "13.0.4"
  else if tag ∈ ["0.4.0-beta.5", "0.4.0-beta.6", "0.4.0-beta.7"] then some "14.0.1"
  else none

/-- Inner `match tag` block of the `case "tailwindcss"` arm of `get_dep_version` -/
def depver_tailwindcss (tag : String) : Option String :=
  if tag ∈ ["0.3.0"] then some "3.0.7"
  else if tag ∈ ["0.3.1"] then some "3.0.8"
  else if tag ∈ ["0.3.2"] then some "3.0.12"
  else if tag ∈ ["0.3.3"] then some "3.0.22"
  else if tag ∈ ["0.3.4", "0.3.5", "0.4.0-beta.1"] then some "3.0.24"
  else if tag ∈ ["0.4.0-beta.2", "0.4.0-beta.3"] then some "3.1.4"
  else if tag ∈ ["0.4.0-beta.4", "0.4.0-beta.5"] then some "3.1.6"
  else if tag ∈ ["0.4.0-beta.6", "0.4.0-beta.7"] then some "3.1.8"
  else none

/-- Inner `match tag` block of the `case "wasm-pack"` arm of `get_dep_version` -/
def depver_wasm_pack (tag : String) : Option String :=
  if tag ∈ ["0.3.0", "0.3.1", "0.3.2", "0.3.3", "0.3.4", "0.3.5", "0.4.0-beta.1"] then some "0.10.2"
  else if tag ∈ ["0.4.0-beta.2", "0.4.0-beta.3", "0.4.0-beta.4", "0.4.0-beta.5", "0.4.0-beta.6", "0.4.0-beta.7"] then some "0.10.3"
  else none

/-- Embeds `get_dep_version` (install.py 420-652): the outer `match dep`
dispatch over the fourteen handled dependency names; unhandled names give `None`.
Python `case "a" | "b":` alternatives are membership tests in the literal list. -/
def get_dep_version (tag dep : String) : Option String :=
  if dep = "binaryen" then depver_binaryen tag
  else if dep = "bonnie" then depver_bonnie tag
  else if dep = "browser-sync" then depver_browser_sync tag
  else if dep = "concurrently" then depver_concurrently tag
  else if dep = "esbuild" then depver_esbuild tag
  else if dep = "node" then depver_node tag
  else if dep = "npm" then depver_npm tag
  else if dep = "nvm" then depver_nvm tag
  else if dep = "perseus-size-opt" then depver_perseus_size_opt tag
  else if dep = "rustup" then depver_rustup tag
  else if dep = "rust" then depver_rust tag
  else if dep = "serve" then depver_serve tag
  else if dep = "tailwindcss" then depver_tailwindcss tag
  else if dep = "wasm-pack" then depver_wasm_pack tag
  else none

/-- Embeds `get_granular_dependency_version` (generate.py 53-285), which is a
byte-identical copy of `get_dep_version` from install.py up to its name
(verified by textual diff of the two ranges). -/
def get_granular_dependency_version (tag dep : String) : Option String :=
  get_dep_version tag dep

/-- Failure modes of the alpine package-string path. `urlError` embeds an
uncaught exception raised by `request.urlopen` when the live fetch yields no
data; `joinTypeError i` embeds the `TypeError` that Python `str.join` raises
at the first non-string item, at index `i`, of the joined list.
`dependencyUnresolved` is the spec taxonomy's error
(`ResolutionError.dependencyUnresolved(name)`); the code never produces it
and it is included so claims phrased in the spec's vocabulary can be stated. -/
inductive PkgError where
  | urlError : String → PkgError
  | joinTypeError : Nat → PkgError
  | dependencyUnresolved : String → PkgError
deriving DecidableEq, Repr, Inhabited

/-- Embeds the URL construction in `get_alpine_pkg_string`
(install.py 394-395, generate.py 35-36). -/
def apkbuildUrl (tag pkg : String) : String :=
  "https://raw.githubusercontent.com/alpinelinux/aports/v" ++ tag ++
    "/main/" ++ pkg ++ "/APKBUILD"

/-- Embeds Python `.replace('\n', ' ')` (install.py 399, generate.py 40):
with a one-character pattern this maps every newline character to a space. -/
def replaceNewlines (s : String) : String :=
  String.mk (s.data.map fun c => if c = '\n' then ' ' else c)

/-- The result triple of `regex_pattern.search` for the pattern
`.* pkgname=([^ ]{1,}).* pkgver=([^ ]{1,}).* pkgrel=([^ ]{1,}) .*`
(install.py 389-391, generate.py 30-32): the three captured groups
(package name, version, revision), or `none` when the pattern does not match.
The regex engine itself is external; the embedding takes its outcome as a
function argument `rsearch`. -/
abbrev RegexSearch := String → Option (String × String × String)

/-- Embeds `get_alpine_pkg_string` (install.py 388-410, generate.py 29-51).
`fetch` is the network: `fetch url = some body` is a successful
`request.urlopen(url)` whose decoded body is `body`, and `fetch url = none`
is a fetch that yields no data, which in the code raises out of the
function (`urlError`).  For the two known alpine tags the body has newlines
replaced by spaces and is searched with `rsearch`; on a match whose captured
name equals the requested package the function returns
`pkgname=pkgver-rpkgrel`; on a name mismatch or a failed match it returns
`None`; for any other tag it returns `None` without fetching. -/
def get_alpine_pkg_string (rsearch : RegexSearch) (fetch : String → Option String)
    (tag pkg : String) : Except PkgError (Option String) :=
  if tag = "3.15.6" ∨ tag = "3.16.2" then
    let url := apkbuildUrl tag pkg
    match fetch url with
    | none => .error (.urlError url)
    | some body =>
      let pkg_data := replaceNewlines body
      match rsearch pkg_data with
      | some (pkg_name, pkg_ver, pkg_rel) =>
          if pkg_name = pkg then
            .ok (some (pkg_name ++ "=" ++ pkg_ver ++ "-r" ++ pkg_rel))
          else
            .ok none
      | none => .ok none
  else
    .ok none

/-- Embeds the accumulation loop of `get_alpine_pkgs` (install.py 413-417):
`output.append(get_alpine_pkg_string(tag, pkg))` for each package in order;
an exception raised by any call propagates out of the loop. -/
def collectPkgStrings (rsearch : RegexSearch) (fetch : String → Option String)
    (tag : String) : List String → Except PkgError (List (Option String))
  | [] => .ok []
  | pkg :: rest =>
    match get_alpine_pkg_string rsearch fetch tag pkg with
    | .error e => .error e
    | .ok s =>
      match collectPkgStrings rsearch fetch tag rest with
      | .error e => .error e
      | .ok ss => .ok (s :: ss)

/-- Embeds the item check of Python `str.join`: the items are inspected in
order and a `TypeError` is raised at the first item that is not a string
(here: the first `None`), carrying that item's index. -/
def joinCheckItems : List (Option String) → Nat → Except PkgError (List String)
  | [], _ => .ok []
  | some s :: rest, i => (joinCheckItems rest (i + 1)).map (fun ss => s :: ss)
  | none :: _, i => .error (.joinTypeError i)

/-- Embeds `get_alpine_pkgs` (install.py 412-418): collect one entry per
requested package, then `' '.join(output)`. -/
def get_alpine_pkgs (rsearch : RegexSearch) (fetch : String → Option String)
    (tag : String) (pkg_name_arr : List String) : Except PkgError String :=
  match collectPkgStrings rsearch fetch tag pkg_name_arr with
  | .error e => .error e
  | .ok output =>
    match joinCheckItems output 0 with
    | .error e => .error e
    | .ok strs => .ok (String.intercalate " " strs)

/-- The request object built by `get_data` (install.py 93-98):
`Request(url=data_url, headers=req_headers)`. -/
structure HttpRequest where
  url : String
  headers : List (String × String)
deriving DecidableEq, Repr, Inhabited

/-- Embeds the request construction of `get_data` (install.py 93-98).
`content_type = some ct` is a caller-specified content type
(`'{0}'.format(content_type)` is `content_type` itself); `none` is the
unspecified case, which uses the fixed default header value. -/
def get_data_request (data_url : String) (content_type : Option String) :
    HttpRequest :=
  let req_headers :=
    match content_type with
    | some ct => [("Content-Type", ct)]
    | none => [("Content-Type", "text/html; charset=utf-8")]
  { url := data_url, headers := req_headers }

/-- Modelled from the spec: the fallback-table lookup of the Dependency
Matrix ("consult the static fallback table indexed by `release.tag`",
section 4.3) is not itself present under src/ — the scripts only define the
table `perseus_deps`.  The lookup selects the first (and, as the tags are
distinct, the only) entry whose `tag` field equals the requested release tag
exactly. -/
def lookupRelease (tag : String) : Option PerseusRelease :=
  perseus_deps.find? (fun r => r.tag = tag)

/-- Modelled from the spec: resolving one dependency of a release against
the fallback table ("indexed by `release.tag`, then by dependency name",
sections 4.3 and 6) — look the release entry up by exact tag, then the
dependency by exact name in that entry's list. -/
def lookupDepVersion (tag dep : String) : Option String :=
  match lookupRelease tag with
  | some r => (r.os.dep.find? (fun d => d.name = dep)).map Dependency.version
  | none => none

/-- The thirteen release tags that appear in the static table
`perseus_deps`, in table order. -/
def knownTags : List String :=
  perseus_deps.map PerseusRelease.tag

/-- The fixed required-dependency list for the alpine distribution:
the names listed by the `perseus_deps` entry of release "0.3.0"
(every entry lists the same names, which theorem `c2_required_dep_list`
proves). -/
def requiredDepNames : List String :=
  ["alpine-sdk", "binaryen", "browser-sync", "concurrently", "esbuild",
   "git", "linux-headers", "make", "musl-dev", "node", "npm", "openrc",
   "openssl", "perl", "perseus-size-opt", "pkgconf", "rust", "rustup",
   "serve", "tailwindcss", "wasm-pack", "zlib-dev"]

/-- The release tags in `perseus_deps` that carry a pre-release suffix. -/
def betaTags : List String :=
  ["0.4.0-beta.1", "0.4.0-beta.2", "0.4.0-beta.3", "0.4.0-beta.4",
   "0.4.0-beta.5", "0.4.0-beta.6", "0.4.0-beta.7"]

/-- An ambient execution environment for a resolution run: the network (a
url-to-body oracle) and the fallback table.  The body of `get_dep_version`
(install.py 420-652) reads neither — it mentions no global and performs no
call — so its embedding run in an environment ignores the environment. -/
structure ResolutionEnv where
  fetch : String → Option String
  table : List PerseusRelease

/-- `get_dep_version` as executed in an ambient environment: the Python
function body references only its two arguments, so the embedding discards
`env`. -/
def get_dep_version_in_env (_env : ResolutionEnv) (tag dep : String) :
    Option String :=
  get_dep_version tag dep

/-- The fourteen dependency names handled by the `match dep` dispatch of
`get_dep_version` (install.py 420-652), in case order. -/
def handledDepNames : List String :=
  ["binaryen", "bonnie", "browser-sync", "concurrently", "esbuild", "node",
   "npm", "nvm", "perseus-size-opt", "rustup", "rust", "serve",
   "tailwindcss", "wasm-pack"]

/-- The `(release tag, dependency name)` pairs at which the pattern
dispatch `get_dep_version` and the static table `perseus_deps` record
different results (computed by comparing the two embeddings over every
table entry). -/
def divergentPairs : List (String × String) :=
  [("0.3.1", "npm"),
   ("0.4.0-beta.1", "perseus-size-opt"),
   ("0.4.0-beta.2", "perseus-size-opt"),
   ("0.4.0-beta.2", "serve"),
   ("0.4.0-beta.2", "wasm-pack"),
   ("0.4.0-beta.3", "perseus-size-opt"),
   ("0.4.0-beta.4", "perseus-size-opt"),
   ("0.4.0-beta.4", "rustup"),
   ("0.4.0-beta.4", "serve"),
   ("0.4.0-beta.5", "perseus-size-opt"),
   ("0.4.0-beta.5", "serve"),
   ("0.4.0-beta.6", "perseus-size-opt"),
   ("0.4.0-beta.7", "perseus-size-opt")]

/-- Embeds the format expression of `get_alpine_package_version`
(install.py 183): `"{0}={1}-r{2}".format(pkg_name, pkg_ver, pkg_rel)`. -/
def alpine_pkg_version_string (pkg_name pkg_ver pkg_rel : String) : String :=
  pkg_name ++ "=" ++ pkg_ver ++ "-r" ++ pkg_rel

/-- A concrete APKBUILD body for the package `make`, used to exercise the
alpine package-string path: after newline replacement the extraction
pattern captures `("make", "4.3", "0")`. -/
def apkbuildBodyMake : String :=
  "pkgname=make\npkgver=4.3\npkgrel=0 "

/-- A concrete regex-search outcome: on the space-joined body of `make` the
pattern captures `("make", "4.3", "0")`; on every other text it fails. -/
def rsearchMakeOnly : RegexSearch := fun s =>
  if s = "pkgname=make pkgver=4.3 pkgrel=0 " then some ("make", "4.3", "0")
  else none

/-- A concrete network oracle: the APKBUILD of `make` on alpine 3.15.6 is
served; every other fetch yields no data. -/
def fetchMakeOnly : String → Option String := fun url =>
  if url = apkbuildUrl "3.15.6" "make" then some apkbuildBodyMake else none

/-! ## Theorems for the claims -/

/-- Helper for claim C6: outside the known release tags the `binaryen` arm
of the dispatch falls through to its default `None` case. -/
theorem depver_binaryen_none {tag : String} (h : tag ∉ knownTags) :
    depver_binaryen tag = none := by
  have hs : ∀ l : List String, (∀ x ∈ l, x ∈ knownTags) → tag ∉ l :=
    fun l hl hm => h (hl tag hm)
  unfold depver_binaryen
  rw [if_neg (hs ["0.3.0", "0.3.1", "0.3.2"] (by decide)),
    if_neg (hs ["0.3.3", "0.3.4", "0.3.5"] (by decide)),
    if_neg (hs ["0.4.0-beta.1"] (by decide)),
    if_neg (hs ["0.4.0-beta.2", "0.4.0-beta.3", "0.4.0-beta.4", "0.4.0-beta.5", "0.4.0-beta.6", "0.4.0-beta.7"] (by decide))]

/-- Helper for claim C6: outside the known release tags the `browser-sync` arm
of the dispatch falls through to its default `None` case. -/
theorem depver_browser_sync_none {tag : String} (h : tag ∉ knownTags) :
    depver_browser_sync tag = none := by
  have hs : ∀ l : List String, (∀ x ∈ l, x ∈ knownTags) → tag ∉ l :=
    fun l hl hm => h (hl tag hm)
  unfold depver_browser_sync
  rw [if_neg (hs ["0.3.0", "0.3.1", "0.3.2", "0.3.3"] (by decide)),
    if_neg (hs ["0.3.4"] (by decide)),
    if_neg (hs ["0.3.5", "0.4.0-beta.1", "0.4.0-beta.2", "0.4.0-beta.3", "0.4.0-beta.4", "0.4.0-beta.5", "0.4.0-beta.6", "0.4.0-beta.7"] (by decide))]

/-- Helper for claim C6: outside the known release tags the `concurrently` arm
of the dispatch falls through to its default `None` case. -/
theorem depver_concurrently_none {tag : String} (h : tag ∉ knownTags) :
    depver_concurrently tag = none := by
  have hs : ∀ l : List String, (∀ x ∈ l, x ∈ knownTags) → tag ∉ l :=
    fun l hl hm => h (hl tag hm)
  unfold depver_concurrently
  rw [if_neg (hs ["0.3.0"] (by decide)),
    if_neg (hs ["0.3.1", "0.3.2", "0.3.3"] (by decide)),
    if_neg (hs ["0.3.4", "0.3.5"] (by decide)),
    if_neg (hs ["0.4.0-beta.1"] (by decide)),
    if_neg (hs ["0.4.0-beta.2"] (by decide)),
    if_neg (hs ["0.4.0-beta.3", "0.4.0-beta.4", "0.4.0-beta.5", "0.4.0-beta.6", "0.4.0-beta.7"] (by decide))]

/-- Helper for claim C6: outside the known release tags the `esbuild` arm
of the dispatch falls through to its default `None` case. -/
theorem depver_esbuild_none {tag : String} (h : tag ∉ knownTags) :
    depver_esbuild tag = none := by
  have hs : ∀ l : List String, (∀ x ∈ l, x ∈ knownTags) → tag ∉ l :=
    fun l hl hm => h (hl tag hm)
  unfold depver_esbuild
  rw [if_neg (hs ["0.3.0"] (by decide)),
    if_neg (hs ["0.3.1"] (by decide)),
    if_neg (hs ["0.3.2"] (by decide)),
    if_neg (hs ["0.3.3"] (by decide)),
    if_neg (hs ["0.3.4", "0.3.5"] (by decide)),
    if_neg (hs ["0.4.0-beta.1"] (by decide)),
    if_neg (hs ["0.4.0-beta.2"] (by decide)),
    if_neg (hs ["0.4.0-beta.3"] (by decide)),
    if_neg (hs ["0.4.0-beta.4", "0.4.0-beta.5"] (by decide)),
    if_neg (hs ["0.4.0-beta.6", "0.4.0-beta.7"] (by decide))]

/-- Helper for claim C6: outside the known release tags the `node` arm
of the dispatch falls through to its default `None` case. -/
theorem depver_node_none {tag : String} (h : tag ∉ knownTags) :
    depver_node tag = none := by
  have hs : ∀ l : List String, (∀ x ∈ l, x ∈ knownTags) → tag ∉ l :=
    fun l hl hm => h (hl tag hm)
  unfold depver_node
  rw [if_neg (hs ["0.3.0", "0.3.1"] (by decide)),
    if_neg (hs ["0.3.2"] (by decide)),
    if_neg (hs ["0.3.3"] (by decide)),
    if_neg (hs ["0.3.4", "0.3.5"] (by decide)),
    if_neg (hs ["0.4.0-beta.1"] (by decide)),
    if_neg (hs ["0.4.0-beta.2", "0.4.0-beta.3"] (by decide)),
    if_neg (hs ["0.4.0-beta.4", "0.4.0-beta.5"] (by decide)),
    if_neg (hs ["0.4.0-beta.6", "0.4.0-beta.7"] (by decide))]

/-- Helper for claim C6: outside the known release tags the `npm` arm
of the dispatch falls through to its default `None` case. -/
theorem depver_npm_none {tag : String} (h : tag ∉ knownTags)
    (hstray : tag ≠ "0.3.1.") :
    depver_npm tag = none := by
  have hs : ∀ l : List String, (∀ x ∈ l, x ∈ knownTags) → tag ∉ l :=
    fun l hl hm => h (hl tag hm)
  have h1 : tag ∉ ["0.3.0", "0.3.1.", "0.3.2"] := by
    intro hm
    simp only [List.mem_cons, List.mem_singleton, List.not_mem_nil, or_false] at hm
    rcases hm with rfl | rfl | rfl
    · exact h (by decide)
    · exact hstray rfl
    · exact h (by decide)
  unfold depver_npm
  rw [if_neg h1,
    if_neg (hs ["0.3.3"] (by decide)),
    if_neg (hs ["0.3.4", "0.3.5"] (by decide)),
    if_neg (hs ["0.4.0-beta.1"] (by decide)),
    if_neg (hs ["0.4.0-beta.2", "0.4.0-beta.3"] (by decide)),
    if_neg (hs ["0.4.0-beta.4", "0.4.0-beta.5"] (by decide)),
    if_neg (hs ["0.4.0-beta.6", "0.4.0-beta.7"] (by decide))]

/-- Helper for claim C6: outside the known release tags the `perseus-size-opt` arm
of the dispatch falls through to its default `None` case. -/
theorem depver_perseus_size_opt_none {tag : String} (h : tag ∉ knownTags) :
    depver_perseus_size_opt tag = none := by
  have hs : ∀ l : List String, (∀ x ∈ l, x ∈ knownTags) → tag ∉ l :=
    fun l hl hm => h (hl tag hm)
  unfold depver_perseus_size_opt
  rw [if_neg (hs ["0.3.0", "0.3.1", "0.3.2", "0.3.3"] (by decide)),
    if_neg (hs ["0.3.4"] (by decide)),
    if_neg (hs ["0.3.5"] (by decide))]

/-- Helper for claim C6: outside the known release tags the `rustup` arm
of the dispatch falls through to its default `None` case. -/
theorem depver_rustup_none {tag : String} (h : tag ∉ knownTags) :
    depver_rustup tag = none := by
  have hs : ∀ l : List String, (∀ x ∈ l, x ∈ knownTags) → tag ∉ l :=
    fun l hl hm => h (hl tag hm)
  unfold depver_rustup
  rw [if_neg (hs ["0.3.0", "0.3.1", "0.3.2", "0.3.3", "0.3.4", "0.3.5", "0.4.0-beta.1", "0.4.0-beta.2", "0.4.0-beta.3"] (by decide)),
    if_neg (hs ["0.4.0-beta.4", "0.4.0-beta.5", "0.4.0-beta.6", "0.4.0-beta.7"] (by decide))]

/-- Helper for claim C6: outside the known release tags the `rust` arm
of the dispatch falls through to its default `None` case. -/
theorem depver_rust_none {tag : String} (h : tag ∉ knownTags) :
    depver_rust tag = none := by
  have hs : ∀ l : List String, (∀ x ∈ l, x ∈ knownTags) → tag ∉ l :=
    fun l hl hm => h (hl tag hm)
  unfold depver_rust
  rw [if_neg (hs ["0.3.0", "0.3.1", "0.3.2"] (by decide)),
    if_neg (hs ["0.3.3"] (by decide)),
    if_neg (hs ["0.3.4", "0.3.5"] (by decide)),
    if_neg (hs ["0.4.0-beta.1", "0.4.0-beta.2"] (by decide)),
    if_neg (hs ["0.4.0-beta.3", "0.4.0-beta.4", "0.4.0-beta.5"] (by decide)),
    if_neg (hs ["0.4.0-beta.6", "0.4.0-beta.7"] (by decide))]

/-- Helper for claim C6: outside the known release tags the `serve` arm
of the dispatch falls through to its default `None` case. -/
theorem depver_serve_none {tag : String} (h : tag ∉ knownTags) :
    depver_serve tag = none := by
  have hs : ∀ l : List String, (∀ x ∈ l, x ∈ knownTags) → tag ∉ l :=
    fun l hl hm => h (hl tag hm)
  unfold depver_serve
  rw [if_neg (hs ["0.3.0", "0.3.1", "0.3.2", "0.3.3", "0.3.4", "0.3.5", "0.4.0-beta.1", "0.4.0-beta.2", "0.4.0-beta.3"] (by decide)),
    if_neg (hs ["0.4.0-beta.4"] (by decide)),
    if_neg (hs ["0.4.0-beta.5", "0.4.0-beta.6", "0.4.0-beta.7"] (by decide))]

/-- Helper for claim C6: outside the known release tags the `tailwindcss` arm
of the dispatch falls through to its default `None` case. -/
theorem depver_tailwindcss_none {tag : String} (h : tag ∉ knownTags) :
    depver_tailwindcss tag = none := by
  have hs : ∀ l : List String, (∀ x ∈ l, x ∈ knownTags) → tag ∉ l :=
    fun l hl hm => h (hl tag hm)
  unfold depver_tailwindcss
  rw [if_neg (hs ["0.3.0"] (by decide)),
    if_neg (hs ["0.3.1"] (by decide)),
    if_neg (hs ["0.3.2"] (by decide)),
    if_neg (hs ["0.3.3"] (by decide)),
    if_neg (hs ["0.3.4", "0.3.5", "0.4.0-beta.1"] (by decide)),
    if_neg (hs ["0.4.0-beta.2", "0.4.0-beta.3"] (by decide)),
    if_neg (hs ["0.4.0-beta.4", "0.4.0-beta.5"] (by decide)),
    if_neg (hs ["0.4.0-beta.6", "0.4.0-beta.7"] (by decide))]

/-- Helper for claim C6: outside the known release tags the `wasm-pack` arm
of the dispatch falls through to its default `None` case. -/
theorem depver_wasm_pack_none {tag : String} (h : tag ∉ knownTags) :
    depver_wasm_pack tag = none := by
  have hs : ∀ l : List String, (∀ x ∈ l, x ∈ knownTags) → tag ∉ l :=
    fun l hl hm => h (hl tag hm)
  unfold depver_wasm_pack
  rw [if_neg (hs ["0.3.0", "0.3.1", "0.3.2", "0.3.3", "0.3.4", "0.3.5", "0.4.0-beta.1"] (by decide)),
    if_neg (hs ["0.4.0-beta.2", "0.4.0-beta.3", "0.4.0-beta.4", "0.4.0-beta.5", "0.4.0-beta.6", "0.4.0-beta.7"] (by decide))]


/-- Claim C6 counterexample: the claim asserts every tag outside all known
ranges yields a failure value, but the `bonnie` arm of `get_dep_version`
returns its constant version for every tag, including an arbitrary
non-semver string. -/
theorem c6_counterexample :
    get_dep_version "not-a-semver-tag" "bonnie" = some "0.3.2" ∧
    some "0.3.2" ≠ (none : Option String) := by decide

/-- Claim C6 (amended): `get_alpine_version` and `get_dep_version` are total
and never crash: `get_alpine_version` only ever returns `None`, `"3.15.6"`
or `"3.16.2"`, and `get_dep_version` returns the failure value `None` for
every tag outside the known release tags and the stray literal `"0.3.1."`,
for every dependency other than the tag-independent `bonnie` and `nvm`. -/
theorem c6_total_and_fails_closed :
    (∀ tag : String, get_alpine_version tag = none ∨
        get_alpine_version tag = some "3.15.6" ∨
        get_alpine_version tag = some "3.16.2") ∧
    (∀ tag dep : String, tag ∉ knownTags → tag ≠ "0.3.1." →
        dep ≠ "bonnie" → dep ≠ "nvm" → get_dep_version tag dep = none) := by
  constructor
  · intro tag
    unfold get_alpine_version
    split_ifs with h1
    · right; left; rfl
    · cases hp : parseSemverTriple tag with
      | none => left; rfl
      | some t =>
          obtain ⟨ma, mi, pa⟩ := t
          dsimp only
          by_cases h2 : ma = 0 ∧ mi > 3
          · rw [if_pos h2]; right; right; rfl
          · rw [if_neg h2]; left; rfl
  · intro tag dep h1 h2 h3 h4
    unfold get_dep_version
    by_cases d1 : dep = "binaryen"
    · rw [if_pos d1]; exact depver_binaryen_none h1
    rw [if_neg d1]
    by_cases d2 : dep = "bonnie"
    · exact absurd d2 h3
    rw [if_neg d2]
    by_cases d3 : dep = "browser-sync"
    · rw [if_pos d3]; exact depver_browser_sync_none h1
    rw [if_neg d3]
    by_cases d4 : dep = "concurrently"
    · rw [if_pos d4]; exact depver_concurrently_none h1
    rw [if_neg d4]
    by_cases d5 : dep = "esbuild"
    · rw [if_pos d5]; exact depver_esbuild_none h1
    rw [if_neg d5]
    by_cases d6 : dep = "node"
    · rw [if_pos d6]; exact depver_node_none h1
    rw [if_neg d6]
    by_cases d7 : dep = "npm"
    · rw [if_pos d7]; exact depver_npm_none h1 h2
    rw [if_neg d7]
    by_cases d8 : dep = "nvm"
    · exact absurd d8 h4
    rw [if_neg d8]
    by_cases d9 : dep = "perseus-size-opt"
    · rw [if_pos d9]; exact depver_perseus_size_opt_none h1
    rw [if_neg d9]
    by_cases d10 : dep = "rustup"
    · rw [if_pos d10]; exact depver_rustup_none h1
    rw [if_neg d10]
    by_cases d11 : dep = "rust"
    · rw [if_pos d11]; exact depver_rust_none h1
    rw [if_neg d11]
    by_cases d12 : dep = "serve"
    · rw [if_pos d12]; exact depver_serve_none h1
    rw [if_neg d12]
    by_cases d13 : dep = "tailwindcss"
    · rw [if_pos d13]; exact depver_tailwindcss_none h1
    rw [if_neg d13]
    by_cases d14 : dep = "wasm-pack"
    · rw [if_pos d14]; exact depver_wasm_pack_none h1
    rw [if_neg d14]

/-- Witness for claim C6: the amended theorem applied to the concrete
unknown tag and the dependency `rust`. -/
theorem c6_witness : get_dep_version "definitely-not-a-release" "rust" = none :=
  c6_total_and_fails_closed.2 "definitely-not-a-release" "rust"
    (by decide) (by decide) (by decide) (by decide)

/-- Claim C2: every release entry of the static fallback table `perseus_deps`
lists exactly the fixed required-dependency list for the alpine
distribution — the same 22 names, in the same order, for every release, with
no extra and no missing names — and each name occurs exactly once within an
entry. -/
theorem c2_table_entries_list_required_deps :
    (perseus_deps.all fun r => r.os.dep.map Dependency.name == requiredDepNames) = true ∧
    requiredDepNames.Nodup ∧ requiredDepNames.length = 22 := by decide

/-- Claim C3 counterexample: `npm` is handled by the dispatch and the table
records version `8.3.0` for release `0.3.1`, yet `get_dep_version` returns
`None` there — its npm case lists the malformed literal `"0.3.1."` instead
of `"0.3.1"` — so the dispatch does not return the recorded version. -/
theorem c3_counterexample :
    get_dep_version "0.3.1" "npm" = none ∧
    lookupDepVersion "0.3.1" "npm" = some "8.3.0" ∧
    "npm" ∈ handledDepNames := by decide

/-- Claim C3 (amended): for every release entry of the table and every
dependency of that entry whose name the dispatch handles, `get_dep_version`
returns exactly the recorded version — except at the thirteen
`divergentPairs`, where the two sources genuinely disagree
(`(0.3.1, npm)` and `(0.4.0-beta.N, perseus-size-opt)` give `None` from the
dispatch, and `serve`, `rustup`, `wasm-pack` differ on some beta tags). -/
theorem c3_dispatch_matches_table_outside_divergences :
    ∀ r ∈ perseus_deps, ∀ d ∈ r.os.dep,
      d.name ∈ handledDepNames → (r.tag, d.name) ∉ divergentPairs →
      get_dep_version r.tag d.name = some d.version := by decide

/-- Witness for claim C3: the amended theorem applied to the `0.3.0` table
entry and its `rust` dependency. -/
theorem c3_witness : get_dep_version "0.3.0" "rust" = some "1.57.0" :=
  c3_dispatch_matches_table_outside_divergences
    ((lookupRelease "0.3.0").getD default) (by decide)
    (Dependency.mk "rust" "1.57.0") (by decide) (by decide) (by decide)

/-- Claim C4: resolving `0.4.0-beta.6` for alpine yields `rust = 1.63.0` and
`serve = 14.0.1`, in the pattern dispatch and in the fallback table alike;
and a fallback-table lookup only ever selects an entry whose tag equals the
requested tag exactly, never an entry matched through a numeric prefix of
the tag. -/
theorem c4_prerelease_exact_match :
    (get_dep_version "0.4.0-beta.6" "rust" = some "1.63.0" ∧
     get_dep_version "0.4.0-beta.6" "serve" = some "14.0.1" ∧
     lookupDepVersion "0.4.0-beta.6" "rust" = some "1.63.0" ∧
     lookupDepVersion "0.4.0-beta.6" "serve" = some "14.0.1") ∧
    ∀ tag r, lookupRelease tag = some r → r.tag = tag := by
  refine ⟨by decide, ?_⟩
  intro tag r h
  unfold lookupRelease at h
  have hp := List.find?_some h
  exact of_decide_eq_true hp

/-- Witness for claim C4: the exact-match lemma applied to the concrete tag
`0.4.0-beta.6` and the entry its lookup returns. -/
theorem c4_witness :
    ((lookupRelease "0.4.0-beta.6").getD default).tag = "0.4.0-beta.6" :=
  c4_prerelease_exact_match.2 "0.4.0-beta.6"
    ((lookupRelease "0.4.0-beta.6").getD default) (by decide)

/-- Claim C5: resolving release `0.3.0` for alpine against the static
fallback table yields `rust = 1.57.0` and `tailwindcss = 3.0.7`; the
pattern dispatch of generate.py records the same versions. -/
theorem c5_release_030_values :
    lookupDepVersion "0.3.0" "rust" = some "1.57.0" ∧
    lookupDepVersion "0.3.0" "tailwindcss" = some "3.0.7" ∧
    get_granular_dependency_version "0.3.0" "rust" = some "1.57.0" ∧
    get_granular_dependency_version "0.3.0" "tailwindcss" = some "3.0.7" := by
  decide

/-- Claim C8: `betaTags` is exactly the list of table tags that fail to
parse as a numeric triple (the pre-release tags), and on each of them
`get_alpine_version` returns `None` even though the fallback table assigns
the base-image version `3.16.2` to that same tag — so for a pre-release the
base-image version is obtainable only from the table. -/
theorem c8_prerelease_alpine_version_only_in_table :
    betaTags = knownTags.filter (fun t => (parseSemverTriple t).isNone) ∧
    ∀ t ∈ betaTags, get_alpine_version t = none ∧
      ((lookupRelease t).map fun r => r.os.version) = some "3.16.2" := by
  exact ⟨by decide, by decide⟩

/-- Witness for claim C8: the theorem applied to the concrete pre-release
tag `0.4.0-beta.1`. -/
theorem c8_witness :
    get_alpine_version "0.4.0-beta.1" = none ∧
    ((lookupRelease "0.4.0-beta.1").map fun r => r.os.version) = some "3.16.2" :=
  c8_prerelease_alpine_version_only_in_table.2 "0.4.0-beta.1" (by decide)

/-- Claim C9: the fallback-only resolution path is deterministic — the
result of `get_dep_version` depends only on its two arguments and not on
the ambient environment (network oracle, fallback table), so two runs with
identical arguments return identical results; moreover the generate.py copy
`get_granular_dependency_version` agrees with it everywhere. -/
theorem c9_dispatch_deterministic :
    ∀ (env1 env2 : ResolutionEnv) (tag dep : String),
      get_dep_version_in_env env1 tag dep = get_dep_version_in_env env2 tag dep ∧
      get_granular_dependency_version tag dep = get_dep_version tag dep :=
  fun _ _ _ _ => ⟨rfl, rfl⟩

/-- Claim C10: the request built by `get_data` carries exactly one header:
`Content-Type: text/html; charset=utf-8` when the caller passes no content
type, and the caller's value verbatim when one is given. -/
theorem c10_content_type_header :
    ∀ data_url : String,
      (get_data_request data_url none).headers
          = [("Content-Type", "text/html; charset=utf-8")] ∧
      ∀ ct : String,
        (get_data_request data_url (some ct)).headers = [("Content-Type", ct)] :=
  fun _ => ⟨rfl, fun _ => rfl⟩

/-- Helper for claim C1: a successful `collectPkgStrings` run records exactly
the per-package results of `get_alpine_pkg_string`, in order. -/
theorem collectPkgStrings_ok_map (rsearch : RegexSearch)
    (fetch : String → Option String) (tag : String) :
    ∀ (pkgs : List String) (out : List (Option String)),
      collectPkgStrings rsearch fetch tag pkgs = Except.ok out →
      pkgs.map (get_alpine_pkg_string rsearch fetch tag) = out.map Except.ok := by
  intro pkgs
  induction pkgs with
  | nil =>
      intro out h
      simp only [collectPkgStrings] at h
      cases h
      rfl
  | cons p ps ih =>
      intro out h
      simp only [collectPkgStrings] at h
      cases hp : get_alpine_pkg_string rsearch fetch tag p with
      | error e => rw [hp] at h; exact absurd h (by simp)
      | ok v =>
          rw [hp] at h
          cases hr : collectPkgStrings rsearch fetch tag ps with
          | error e => rw [hr] at h; exact absurd h (by simp)
          | ok vs =>
              rw [hr] at h
              dsimp only at h
              cases h
              simp only [List.map, hp, ih vs hr]

/-- Helper for claim C1: `str.join` succeeds exactly when every item is a
string, and then returns the items themselves. -/
theorem joinCheckItems_ok_map :
    ∀ (items : List (Option String)) (i : Nat) (strs : List String),
      joinCheckItems items i = Except.ok strs → items = strs.map some := by
  intro items
  induction items with
  | nil =>
      intro i strs h
      simp only [joinCheckItems] at h
      cases h
      rfl
  | cons o rest ih =>
      intro i strs h
      cases o with
      | none =>
          simp only [joinCheckItems] at h
          exact absurd h (by simp)
      | some s =>
          simp only [joinCheckItems] at h
          cases hr : joinCheckItems rest (i + 1) with
          | error e => rw [hr] at h; exact absurd h (by simp [Except.map])
          | ok ss =>
              rw [hr] at h
              simp only [Except.map] at h
              cases h
              simp only [List.map, ih (i + 1) ss hr]

/-- Claim C1 counterexample: with `make` resolvable and the live fetch for
`openrc` yielding no data — and the fallback table having no entry for the
lookup key used on this path — `get_alpine_pkgs` does fail as a whole, but
with the propagated url error, not with a `dependencyUnresolved("openrc")`
resolution error; the fallback table is never consulted on this path. -/
theorem c1_counterexample :
    get_alpine_pkg_string rsearchMakeOnly fetchMakeOnly "3.15.6" "make"
      = Except.ok (some "make=4.3-r0") ∧
    lookupRelease "3.15.6" = none ∧
    get_alpine_pkgs rsearchMakeOnly fetchMakeOnly "3.15.6" ["make", "openrc"]
      = Except.error (PkgError.urlError (apkbuildUrl "3.15.6" "openrc")) ∧
    Except.error (PkgError.urlError (apkbuildUrl "3.15.6" "openrc"))
      ≠ (Except.error (PkgError.dependencyUnresolved "openrc") :
          Except PkgError String) := by
  refine ⟨rfl, by decide, rfl, ?_⟩
  intro h
  exact absurd (Except.error.inj h) (by decide)

/-- Claim C1 (amended): whenever `get_alpine_pkgs` returns a string at all,
every requested package resolved to a package string and the output is
exactly their space-join — it is never a string assembled from a mix of
resolved and unresolved entries.  Contrapositively, any single unresolved
dependency makes the whole call fail; the failure value is the propagated
fetch error or the join type error, not a `dependencyUnresolved(name)`
resolution error naming the dependency. -/
theorem c1_no_partial_install_string :
    ∀ (rsearch : RegexSearch) (fetch : String → Option String)
      (tag : String) (pkgs : List String) (s : String),
      get_alpine_pkgs rsearch fetch tag pkgs = Except.ok s →
      ∃ strs : List String,
        pkgs.map (get_alpine_pkg_string rsearch fetch tag)
          = strs.map (fun str => Except.ok (some str)) ∧
        s = String.intercalate " " strs := by
  intro rsearch fetch tag pkgs s h
  unfold get_alpine_pkgs at h
  cases hc : collectPkgStrings rsearch fetch tag pkgs with
  | error e => rw [hc] at h; exact absurd h (by simp)
  | ok out =>
      rw [hc] at h
      dsimp only at h
      cases hj : joinCheckItems out 0 with
      | error e => rw [hj] at h; exact absurd h (by simp)
      | ok strs =>
          rw [hj] at h
          dsimp only at h
          cases h
          refine ⟨strs, ?_, rfl⟩
          rw [collectPkgStrings_ok_map rsearch fetch tag pkgs out hc,
            joinCheckItems_ok_map out 0 strs hj, List.map_map]
          rfl

/-- Witness for claim C1: the amended theorem applied to a run in which the
single requested package `make` resolves, so the output is exactly its
package string. -/
theorem c1_witness :
    ∃ strs : List String,
      (["make"].map (get_alpine_pkg_string rsearchMakeOnly fetchMakeOnly "3.15.6"))
        = strs.map (fun str => Except.ok (some str)) ∧
      "make=4.3-r0" = String.intercalate " " strs :=
  c1_no_partial_install_string rsearchMakeOnly fetchMakeOnly "3.15.6" ["make"]
    "make=4.3-r0" rfl

/-- Claim C7: on the alpine path, whenever the extraction pattern matches
the newline-collapsed package-descriptor text and the captured package name
equals the requested package, the returned string is exactly
`name=version-rRevision`, with the captured version and revision substrings
embedded unmodified; the format step of `get_alpine_package_version`
(install.py 183) produces the same shape. -/
theorem c7_alpine_version_string_format :
    ∀ (rsearch : RegexSearch) (fetch : String → Option String)
      (tag pkg body pkg_name pkg_ver pkg_rel : String),
      tag = "3.15.6" ∨ tag = "3.16.2" →
      fetch (apkbuildUrl tag pkg) = some body →
      rsearch (replaceNewlines body) = some (pkg_name, pkg_ver, pkg_rel) →
      pkg_name = pkg →
      get_alpine_pkg_string rsearch fetch tag pkg
        = Except.ok (some (pkg ++ "=" ++ pkg_ver ++ "-r" ++ pkg_rel)) ∧
      alpine_pkg_version_string pkg_name pkg_ver pkg_rel
        = pkg ++ "=" ++ pkg_ver ++ "-r" ++ pkg_rel := by
  intro rsearch fetch tag pkg body pkg_name pkg_ver pkg_rel htag hf hr hn
  subst hn
  refine ⟨?_, rfl⟩
  unfold get_alpine_pkg_string
  rw [if_pos htag]
  dsimp only
  rw [hf]
  dsimp only
  rw [hr]
  dsimp only
  rw [if_pos rfl]

/-- Witness for claim C7: the theorem applied to the concrete `make`
descriptor, whose pattern search captures `("make", "4.3", "0")`. -/
theorem c7_witness :
    get_alpine_pkg_string rsearchMakeOnly fetchMakeOnly "3.15.6" "make"
      = Except.ok (some ("make" ++ "=" ++ "4.3" ++ "-r" ++ "0")) ∧
    alpine_pkg_version_string "make" "4.3" "0"
      = "make" ++ "=" ++ "4.3" ++ "-r" ++ "0" :=
  c7_alpine_version_string_format rsearchMakeOnly fetchMakeOnly "3.15.6" "make"
    apkbuildBodyMake "make" "4.3" "0" (Or.inl rfl) (by decide) (by decide) rfl

/-- Witness for claim C9: two concrete, different environments yield the
same result at a concrete input. -/
theorem c9_witness :
    get_dep_version_in_env ⟨fun _ => none, []⟩ "0.3.0" "rust"
      = get_dep_version_in_env ⟨fun _ => some "", perseus_deps⟩ "0.3.0" "rust" :=
  (c9_dispatch_deterministic ⟨fun _ => none, []⟩
    ⟨fun _ => some "", perseus_deps⟩ "0.3.0" "rust").1

/-- Witness for claim C10: the default header at a concrete url. -/
theorem c10_witness :
    (get_data_request "https://hub.docker.com/v2/namespaces/library/repositories/alpine"
        none).headers = [("Content-Type", "text/html; charset=utf-8")] :=
  (c10_content_type_header
    "https://hub.docker.com/v2/namespaces/library/repositories/alpine").1

end DockerPerseus
